import Mathlib

/-!
Shallow embedding of the mapty workout tracker (src/script.js).

JavaScript numbers at the form boundary are modelled by `JsNum` (a rational
or one of the non-finite values `NaN`, `Infinity`, `-Infinity`); arithmetic
inside validated code paths, where all values are finite, is modelled over ℚ.
`Number.prototype.toFixed(1)` is modelled by `toFixed1` (round half away from
zero to one decimal digit, rendered as a string, matching the ECMAScript
"pick the larger n" tie rule applied after sign extraction).

The `App.#workouts` array is heterogeneous at runtime: it holds class
instances (built by `new Running(...)` / `new Cycling(...)`), plain objects
produced by `JSON.parse` in `_getLocalStorage`, and possibly `undefined`
(pushed by `_newWorkout` when the type is neither "running" nor "cycling").
`Entry` models this: property access on `Entry.undefined` throws a `TypeError`
(this also covers a JSON `null`, on which property access throws likewise),
and calling `.click()` on a plain object throws because parsed objects do
not have the `Workout` prototype.
-/

namespace Mapty

/-- A JavaScript number: finite (modelled as a rational) or one of the
three non-finite values. -/
inductive JsNum where
  | fin (q : ℚ)
  | nan
  | posInf
  | negInf
  deriving DecidableEq, Repr

/-- `Number.isFinite` from the guard `validInputs` in `_newWorkout`. -/
def JsNum.isFinite : JsNum → Bool
  | .fin _ => true
  | _ => false

/-- The JS comparison `i > 0` from the guard `allPositive` in `_newWorkout`:
`NaN > 0` is false, `Infinity > 0` is true, `-Infinity > 0` is false. -/
def JsNum.isPos : JsNum → Bool
  | .fin q => decide (0 < q)
  | .posInf => true
  | _ => false

/-- The rational carried by a finite `JsNum`; only used on code paths where
`validInputs` has already guaranteed finiteness. -/
def JsNum.toQ : JsNum → ℚ
  | .fin q => q
  | _ => 0

/-- The one runtime error the modelled code paths can raise. -/
inductive JsErr where
  | typeError
  deriving DecidableEq, Repr

/-- The `months` array in `Workout._setDescription`. -/
def months : List String :=
  ["January", "February", "March", "April", "May", "June", "July",
   "August", "September", "October", "November", "December"]

/-- `type[0].toUpperCase() + type.slice(1)` from `_setDescription`. -/
def capitalizeFirst (s : String) : String :=
  match s.data with
  | [] => ""
  | c :: cs => String.mk (c.toUpper :: cs)

/-- Digits of `x.toFixed(1)` for `0 ≤ x`: the integer `n` with `n / 10`
closest to `x` (ties to the larger `n`), rendered as `n/10 "." n%10`. -/
def toFixed1Digits (x : ℚ) : String :=
  let n : ℕ := (round (x * 10)).toNat
  toString (n / 10) ++ "." ++ toString (n % 10)

/-- `Number.prototype.toFixed(1)`: sign is extracted first, then the
magnitude is rounded with ties going to the larger candidate. -/
def toFixed1 (x : ℚ) : String :=
  if x < 0 then "-" ++ toFixed1Digits (-x) else toFixed1Digits x

/-- The rational value denoted by `x.toFixed(1)`: `x` rounded to the nearest
tenth (ties upward, which for `x ≥ 0` agrees with `toFixed`). -/
def round1 (x : ℚ) : ℚ := ((round (x * 10) : ℤ) : ℚ) / 10

/-- `Workout._setDescription`: capitalized type, month name, day of month.
`m` is `date.getMonth()` (0-based), `d` is `date.getDate()`. -/
def setDescription (ty : String) (m : Fin 12) (d : ℕ) : String :=
  capitalizeFirst ty ++ " on " ++ months.getD m.val "" ++ " " ++ toString d

/-- A `Running` or `Cycling` class instance: the own properties set by the
`Workout` base class plus the subclass fields. `cadence`/`pace` are present
exactly on running instances, `elevationGain`/`speed` exactly on cycling
instances (modelled with `Option`). `dateMonth`/`dateDay` are the components
of the `date = new Date()` property that the program reads. -/
structure Workout where
  dateMonth : Fin 12
  dateDay : ℕ
  id : String
  clicks : ℚ
  coords : ℚ × ℚ
  distance : ℚ
  duration : ℚ
  type : String
  isRunning : Bool
  cadence : Option ℚ
  pace : Option String
  elevationGain : Option ℚ
  speed : Option String
  description : String
  deriving DecidableEq, Repr

/-- `new Running(coords, distance, duration, cadence)`: the base constructor
sets coords/distance/duration, field initializers set `clicks = 0`, the id
and date come from the environment (`Date.now`+random, `new Date()`), then
`calcPace` stores `(duration / distance).toFixed(1)` and `_setDescription`
caches the description. -/
def mkRunning (now : Fin 12 × ℕ) (idv : String) (coords : ℚ × ℚ)
    (distance duration cadence : ℚ) : Workout :=
  { dateMonth := now.1
    dateDay := now.2
    id := idv
    clicks := 0
    coords := coords
    distance := distance
    duration := duration
    type := "running"
    isRunning := true
    cadence := some cadence
    pace := some (toFixed1 (duration / distance))
    elevationGain := none
    speed := none
    description := setDescription "running" now.1 now.2 }

/-- `new Cycling(coords, distance, duration, elevationGain)`: as `mkRunning`
but `calcSpeed` stores `(distance / (duration / 60)).toFixed(1)`. -/
def mkCycling (now : Fin 12 × ℕ) (idv : String) (coords : ℚ × ℚ)
    (distance duration elevationGain : ℚ) : Workout :=
  { dateMonth := now.1
    dateDay := now.2
    id := idv
    clicks := 0
    coords := coords
    distance := distance
    duration := duration
    type := "cycling"
    isRunning := false
    cadence := none
    pace := none
    elevationGain := some elevationGain
    speed := some (toFixed1 (distance / (duration / 60)))
    description := setDescription "cycling" now.1 now.2 }

/-- The plain-object shape produced by `JSON.parse(JSON.stringify(w))` for a
workout `w`: every own enumerable property survives with its value, except
the `Date`, which serializes to its ISO string. -/
structure StoredWorkout where
  dateStr : String
  id : String
  clicks : ℚ
  coords : ℚ × ℚ
  distance : ℚ
  duration : ℚ
  type : String
  isRunning : Bool
  cadence : Option ℚ
  pace : Option String
  elevationGain : Option ℚ
  speed : Option String
  description : String
  deriving DecidableEq, Repr

/-- One slot of the serialized array: `JSON.stringify` maps an `undefined`
array element to `null`, modelled as `none`. -/
abbrev StoredEntry := Option StoredWorkout

/-- One slot of the runtime `#workouts` array. -/
inductive Entry where
  /-- a class instance built by `new Running(...)` or `new Cycling(...)` -/
  | inst (w : Workout)
  /-- a plain object from `JSON.parse` (no `Workout` prototype) -/
  | plain (p : StoredWorkout)
  /-- `undefined` (pushed when the form type is unknown), or a parsed `null` -/
  | undefined
  deriving DecidableEq, Repr

/-- The ISO rendering of the `date` property under `JSON.stringify`;
abstracted to the month/day components, the only parts the program reads. -/
def isoOfDate (m : Fin 12) (d : ℕ) : String :=
  toString m.val ++ "-" ++ toString d

/-- `JSON.stringify` of one class instance: field-for-field, with the date
replaced by its string rendering. -/
def serializeWorkout (w : Workout) : StoredWorkout :=
  { dateStr := isoOfDate w.dateMonth w.dateDay
    id := w.id
    clicks := w.clicks
    coords := w.coords
    distance := w.distance
    duration := w.duration
    type := w.type
    isRunning := w.isRunning
    cadence := w.cadence
    pace := w.pace
    elevationGain := w.elevationGain
    speed := w.speed
    description := w.description }

/-- `JSON.stringify` of one array slot: instances and plain objects keep
their own properties, `undefined` becomes `null`. -/
def serializeEntry : Entry → StoredEntry
  | .inst w => some (serializeWorkout w)
  | .plain p => some p
  | .undefined => none

/-- `JSON.stringify(this.#workouts)` in `_setLocalStorage`. -/
def serializeEntries (ws : List Entry) : List StoredEntry :=
  ws.map serializeEntry

/-- `JSON.parse` of one serialized slot: a plain object without the class
prototype; `null` is conflated with `undefined` (property access throws on
both). -/
def loadEntry : StoredEntry → Entry
  | some p => .plain p
  | none => .undefined

/-- `JSON.parse(localStorage.getItem("workouts"))` in `_getLocalStorage`. -/
def loadEntries (raw : List StoredEntry) : List Entry :=
  raw.map loadEntry

/-- The property access `workout.id` inside the `find` callback of
`_moveToPopup`: throws a `TypeError` on `undefined`. -/
def Entry.getId : Entry → Except JsErr String
  | .inst w => .ok w.id
  | .plain p => .ok p.id
  | .undefined => .error .typeError

/-- The call `workout.click()` in `_moveToPopup`: class instances increment
their `clicks` property; a plain parsed object has no `click` method, so
the call throws a `TypeError`; so does any access on `undefined`. -/
def Entry.doClick : Entry → Except JsErr Entry
  | .inst w => .ok (.inst { w with clicks := w.clicks + 1 })
  | _ => .error .typeError

/-- The id comparison `workout.id === i` as a boolean on slots whose id
access succeeds (false when the access would throw); used to count how many
records of a store bear a given id. -/
def Entry.idIs (e : Entry) (i : String) : Bool :=
  match e.getId with
  | .ok s => s == i
  | .error _ => false

/-- The fields of a record that survive the serialize/load round trip with
identical values: everything except the date (whose `Date` object becomes a
string) and the prototype. -/
structure CoreFields where
  id : String
  type : String
  isRunning : Bool
  coords : ℚ × ℚ
  distance : ℚ
  duration : ℚ
  cadence : Option ℚ
  elevationGain : Option ℚ
  pace : Option String
  speed : Option String
  description : String
  clicks : ℚ
  deriving DecidableEq, Repr

/-- Projection of a store entry onto its round-trip-comparable fields
(`none` for `undefined`). -/
def fieldsOf : Entry → Option CoreFields
  | .inst w =>
      some { id := w.id, type := w.type, isRunning := w.isRunning
             coords := w.coords, distance := w.distance, duration := w.duration
             cadence := w.cadence, elevationGain := w.elevationGain
             pace := w.pace, speed := w.speed
             description := w.description, clicks := w.clicks }
  | .plain p =>
      some { id := p.id, type := p.type, isRunning := p.isRunning
             coords := p.coords, distance := p.distance, duration := p.duration
             cadence := p.cadence, elevationGain := p.elevationGain
             pace := p.pace, speed := p.speed
             description := p.description, clicks := p.clicks }
  | .undefined => none

/-- The app state the claims are about: the private `#workouts` array and
the `"workouts"` key of `localStorage` (`none` when absent). -/
structure AppState where
  workouts : List Entry
  storage : Option (List StoredEntry)
  deriving DecidableEq, Repr

/-- `validInputs(...inputs)` from `_newWorkout`. -/
def validInputs (inputs : List JsNum) : Bool :=
  inputs.all JsNum.isFinite

/-- `allPositive(...inputs)` from `_newWorkout`. -/
def allPositive (inputs : List JsNum) : Bool :=
  inputs.all JsNum.isPos

/-- `App._setLocalStorage`: stores the serialized array under the
`"workouts"` key. -/
def setLocalStorage (st : AppState) : AppState :=
  { st with storage := some (serializeEntries st.workouts) }

/-- The form values read by `_newWorkout` after the unary `+` coercion. -/
structure FormInput where
  type : String
  distance : JsNum
  duration : JsNum
  cadence : JsNum
  elevation : JsNum
  deriving DecidableEq, Repr

/-- How one `_newWorkout` invocation ended. -/
inductive Outcome where
  /-- `return alert(...)`: the submission was rejected with a blocking message -/
  | alerted (msg : String)
  /-- the workout was created, rendered and persisted -/
  | ok
  /-- a runtime exception escaped the handler -/
  | threw (e : JsErr)
  deriving DecidableEq, Repr

/-- `App._newWorkout`, parametrized by the environment inputs the handler
reads: the clicked map position `latlng`, the current date `now`, and the
freshly generated id `newId`. Returns the state after the handler and its
outcome. On the unknown-type path `newWorkout` is still `undefined` when
pushed, and `_renderWorkout(newWorkout)` then throws on the property access
`workout.type`, before `_setLocalStorage` runs. -/
def newWorkout (st : AppState) (f : FormInput) (latlng : ℚ × ℚ)
    (now : Fin 12 × ℕ) (newId : String) : AppState × Outcome :=
  if f.type = "running" then
    if !validInputs [f.distance, f.duration, f.cadence]
        || !allPositive [f.distance, f.duration, f.cadence] then
      (st, .alerted ("Inputs have to be positive numbers"))
    else
      let w := mkRunning now newId latlng f.distance.toQ f.duration.toQ f.cadence.toQ
      let st' := { st with workouts := st.workouts ++ [Entry.inst w] }
      (setLocalStorage st', .ok)
  else if f.type = "cycling" then
    if !validInputs [f.distance, f.duration, f.elevation]
        || !allPositive [f.distance, f.duration] then
      (st, .alerted ("Inputs have to be positive numbers"))
    else
      let w := mkCycling now newId latlng f.distance.toQ f.duration.toQ f.elevation.toQ
      let st' := { st with workouts := st.workouts ++ [Entry.inst w] }
      (setLocalStorage st', .ok)
  else
    ({ st with workouts := st.workouts ++ [Entry.undefined] }, .threw .typeError)

/-- The `this.#workouts.find(workout => workout.id === id)` lookup of
`_moveToPopup`: scans left to right, may throw on an `undefined` slot. -/
def findFirst : List Entry → String → Except JsErr (Option Entry)
  | [], _ => .ok none
  | e :: rest, i =>
      match e.getId with
      | .error er => .error er
      | .ok eid => if eid = i then .ok (some e) else findFirst rest i

/-- The lookup-then-use tail of `_moveToPopup`: find the first entry with
the given id and call `.click()` on it. When no entry matches, `find`
returns `undefined` and the subsequent `workout.coords` access throws. -/
def clickFirst : List Entry → String → Except JsErr (List Entry)
  | [], _ => .error .typeError
  | e :: rest, i =>
      match e.getId with
      | .error er => .error er
      | .ok eid =>
          if eid = i then
            match e.doClick with
            | .error er => .error er
            | .ok e' => .ok (e' :: rest)
          else
            match clickFirst rest i with
            | .error er => .error er
            | .ok rest' => .ok (e :: rest')

/-- `App._moveToPopup`: `clicked` is the `data-id` of the closest `.workout`
ancestor of the click target, or `none` when there is none (early return). -/
def moveToPopup (ws : List Entry) (clicked : Option String) :
    Except JsErr (List Entry) :=
  match clicked with
  | none => .ok ws
  | some i => clickFirst ws i

/-- `App._getLocalStorage`: absent key (or a falsy parse) leaves the state
alone; otherwise the parsed plain data replaces `#workouts` wholesale, and
the subsequent render pass throws if some slot is `undefined`/`null`. -/
def getLocalStorage (st : AppState) : AppState × Option JsErr :=
  match st.storage with
  | none => (st, none)
  | some raw =>
      let ws := loadEntries raw
      ({ st with workouts := ws },
        if ws.any (fun e => e = Entry.undefined) then some JsErr.typeError else none)

end Mapty

namespace Mapty

/-! ### Helper lemmas -/

/-- For a nonnegative argument, `toFixed1` renders the tenths-rounding of its
argument: the digits shown are those of `round (x * 10)`, and the rational
value they denote is `round1 x`. -/
theorem toFixed1_eq_digits_of_nonneg (x : ℚ) (hx : 0 ≤ x) :
    ∃ n : ℕ, toFixed1 x = toString (n / 10) ++ "." ++ toString (n % 10) ∧
      round1 x = (n : ℚ) / 10 := by
  have hlt : ¬ x < 0 := not_lt.mpr hx
  have hr : (0 : ℤ) ≤ round (x * 10) := by
    rw [round_eq]
    refine Int.le_floor.mpr ?_
    push_cast
    linarith
  refine ⟨(round (x * 10)).toNat, ?_, ?_⟩
  · simp only [toFixed1, if_neg hlt, toFixed1Digits]
  · rw [round1]
    congr 1
    exact_mod_cast (Int.toNat_of_nonneg hr).symm

/-- Rounding to one decimal moves a rational by at most `1/20`. -/
theorem abs_round1_sub_le (x : ℚ) : |round1 x - x| ≤ 1 / 20 := by
  have h := abs_sub_round (x * 10)
  have h2 : |((round (x * 10) : ℤ) : ℚ) - x * 10| ≤ 1 / 2 := by
    rw [abs_sub_comm]; exact h
  have hrw : round1 x - x = (((round (x * 10) : ℤ) : ℚ) - x * 10) / 10 := by
    rw [round1]; ring
  rw [hrw, abs_div, abs_of_pos (by norm_num : (0 : ℚ) < 10)]
  linarith

/-- One slot survives serialize-then-parse with all comparable fields intact. -/
theorem fieldsOf_loadEntry_serializeEntry (e : Entry) :
    fieldsOf (loadEntry (serializeEntry e)) = fieldsOf e := by
  cases e <;> rfl

/-- A sample class instance used by several concrete witnesses. -/
def sampleRun : Workout := mkRunning (0, 1) "123" (1, 2) 5 20 170

/-- A sample running form submission used by several concrete witnesses. -/
def runForm : FormInput :=
  ⟨"running", JsNum.fin 5, JsNum.fin 20, JsNum.fin 170, JsNum.fin 0⟩

/-- A sample parsed plain object; its stored `pace` ("9.9") deliberately
disagrees with what `calcPace` would derive from its distance and duration
("4.0"), exhibiting that loading retains serialized values verbatim. -/
def samplePlain : StoredWorkout :=
  ⟨"8-15", "777", 3, (1, 2), 5, 20, "running", true, some 170, some "9.9",
    none, none, "Running on September 15"⟩

/-! ### Claims -/

/-- C1: the derived metric is fixed at construction: a `Running` instance
stores `pace = (duration / distance).toFixed(1)` and a `Cycling` instance
stores `speed = (distance / (duration / 60)).toFixed(1)`; in particular a
running workout over 5.2 km in 24 min gets pace "4.6" whatever the current
date and generated id are. -/
theorem derivedMetric_at_construction :
    (∀ (now : Fin 12 × ℕ) (idv : String) (coords : ℚ × ℚ) (d dur cad : ℚ),
        (mkRunning now idv coords d dur cad).pace = some (toFixed1 (dur / d))) ∧
    (∀ (now : Fin 12 × ℕ) (idv : String) (coords : ℚ × ℚ) (d dur elev : ℚ),
        (mkCycling now idv coords d dur elev).speed =
          some (toFixed1 (d / (dur / 60)))) ∧
    (∀ (now : Fin 12 × ℕ) (idv : String),
        (mkRunning now idv (38.7, -9.1) 5.2 24 178).pace = some "4.6") := by
  refine ⟨fun _ _ _ _ _ _ => rfl, fun _ _ _ _ _ _ => rfl, fun now idv => ?_⟩
  show some (toFixed1 ((24 : ℚ) / 5.2)) = some "4.6"
  have h0 : ¬((24 : ℚ) / 5.2 < 0) := by norm_num
  have h1 : round (((24 : ℚ) / 5.2) * 10) = 46 := by norm_num [round_eq]
  simp only [toFixed1, toFixed1Digits, if_neg h0, h1]
  rfl

/-- C2: a form submission of either kind in which a required numeric input
is invalid — distance or duration non-finite or non-positive for running and
cycling alike, or, for running, cadence non-finite or non-positive — is
rejected by the blocking alert, no record is constructed, and both the
in-memory store and the persisted data are left exactly as they were. -/
theorem invalid_submission_rejected (st : AppState) (f : FormInput)
    (ll : ℚ × ℚ) (now : Fin 12 × ℕ) (idv : String)
    (hkind : f.type = "running" ∨ f.type = "cycling")
    (hbad : f.distance.isFinite = false ∨ f.duration.isFinite = false ∨
      f.distance.isPos = false ∨ f.duration.isPos = false ∨
      (f.type = "running" ∧
        (f.cadence.isFinite = false ∨ f.cadence.isPos = false))) :
    newWorkout st f ll now idv =
      (st, Outcome.alerted ("Inputs have to be positive numbers")) := by
  rcases hkind with hty | hty
  · have hg : (!validInputs [f.distance, f.duration, f.cadence]
        || !allPositive [f.distance, f.duration, f.cadence]) = true := by
      rcases hbad with h | h | h | h | ⟨_, h | h⟩ <;>
        simp [validInputs, allPositive, h]
    simp [newWorkout, hty, hg]
  · have hrun : ¬ f.type = "running" := by rw [hty]; decide
    have hg : (!validInputs [f.distance, f.duration, f.elevation]
        || !allPositive [f.distance, f.duration]) = true := by
      rcases hbad with h | h | h | h | ⟨hr, _⟩
      · simp [validInputs, h]
      · simp [validInputs, h]
      · simp [allPositive, h]
      · simp [allPositive, h]
      · exact absurd (hr.symm.trans hty) (by decide)
    simp [newWorkout, hrun, hty, hg]

/-- C2 witness: a concrete running submission with `NaN` cadence and a
concrete cycling submission with distance −5 are both rejected and the empty
app state is untouched. -/
theorem invalid_submission_rejected_witness :
    newWorkout ⟨[], none⟩
        ⟨"running", JsNum.fin 5, JsNum.fin 20, JsNum.nan, JsNum.fin 0⟩
        (1, 2) (0, 1) "42" =
      (⟨[], none⟩, Outcome.alerted ("Inputs have to be positive numbers")) ∧
    newWorkout ⟨[], none⟩
        ⟨"cycling", JsNum.fin (-5), JsNum.fin 20, JsNum.fin 0, JsNum.fin 100⟩
        (1, 2) (0, 1) "43" =
      (⟨[], none⟩, Outcome.alerted ("Inputs have to be positive numbers")) :=
  ⟨invalid_submission_rejected _ _ _ _ _ (Or.inl rfl)
      (Or.inr (Or.inr (Or.inr (Or.inr ⟨rfl, Or.inl rfl⟩)))),
    invalid_submission_rejected _ _ _ _ _ (Or.inr rfl)
      (Or.inr (Or.inr (Or.inl (by decide))))⟩

/-- C3: serializing the store and loading the result yields a sequence of
records of the same length, in the same order, with identical id, kind,
coordinate and numeric fields (and metric and description) slot by slot. -/
theorem store_roundtrip_preserves_fields (ws : List Entry) :
    (loadEntries (serializeEntries ws)).map fieldsOf = ws.map fieldsOf ∧
    (loadEntries (serializeEntries ws)).length = ws.length := by
  constructor
  · induction ws with
    | nil => rfl
    | cons e rest ih =>
        simpa [loadEntries, serializeEntries,
          fieldsOf_loadEntry_serializeEntry e] using ih
  · simp [loadEntries, serializeEntries]

end Mapty

namespace Mapty

/-- C4 counterexample: the claim says activation of an absent id is a silent
no-op that does not throw; in the code, `find` returns `undefined` and the
following `workout.coords` access throws a `TypeError`, already on the empty
store. -/
theorem activate_absent_throws_cex :
    moveToPopup [] (some "123") = Except.error JsErr.typeError := rfl

/-- C4 (amended): on a store whose entries are all defined and none of which
bears the looked-up id, the `find` lookup itself returns `undefined`
(NotFound) without throwing, but activation is not a silent no-op: the
handler dereferences the `undefined` lookup result and throws a `TypeError`. -/
theorem findById_absent_notfound_activate_throws (ws : List Entry) (i : String)
    (habs : ∀ e ∈ ws, ∃ s, e.getId = Except.ok s ∧ s ≠ i) :
    findFirst ws i = Except.ok none ∧
      moveToPopup ws (some i) = Except.error JsErr.typeError := by
  induction ws with
  | nil => exact ⟨rfl, rfl⟩
  | cons e rest ih =>
      obtain ⟨s, hs, hne⟩ := habs e (List.mem_cons_self e rest)
      have ihr := ih (fun a ha => habs a (List.mem_cons_of_mem e ha))
      constructor
      · rw [findFirst, hs]
        simp only [if_neg hne]
        exact ihr.1
      · show clickFirst (e :: rest) i = Except.error JsErr.typeError
        rw [clickFirst, hs]
        simp only [if_neg hne]
        have : clickFirst rest i = Except.error JsErr.typeError := ihr.2
        rw [this]

/-- C4 witness: on a one-record store, looking up an id that is not present
returns NotFound without throwing, while activating it throws. -/
theorem findById_absent_notfound_activate_throws_witness :
    findFirst [Entry.inst sampleRun] "999" = Except.ok none ∧
      moveToPopup [Entry.inst sampleRun] (some "999") =
        Except.error JsErr.typeError :=
  findById_absent_notfound_activate_throws [Entry.inst sampleRun] "999"
    (by
      intro e he
      simp only [List.mem_singleton] at he
      subst he
      exact ⟨"123", rfl, by decide⟩)

/-- C5 counterexample: the claim says a record whose id duplicates an
existing one is rejected with `DuplicateIdError` and not appended; in the
code, two submissions that draw the same generated id both succeed, and the
store ends up holding two records with id "123". -/
theorem add_duplicate_id_cex :
    ((newWorkout ((newWorkout ⟨[], none⟩ runForm (1, 2) (0, 1) "123").1)
        runForm (1, 2) (0, 1) "123").1.workouts.countP
      (fun e => e.idIs "123")) = 2 ∧
    (newWorkout ((newWorkout ⟨[], none⟩ runForm (1, 2) (0, 1) "123").1)
        runForm (1, 2) (0, 1) "123").2 = Outcome.ok := by
  constructor <;> rfl

/-- C5 (amended): the source performs no duplicate-id check: a valid running
submission whose freshly generated id already occurs in the store is still
appended unconditionally, the handler reports success, and the store then
holds at least two records with that id. -/
theorem add_no_duplicate_check (st : AppState) (f : FormInput) (ll : ℚ × ℚ)
    (now : Fin 12 × ℕ) (idv : String) (qd qdur qc : ℚ)
    (hty : f.type = "running")
    (hd : f.distance = JsNum.fin qd) (hdur : f.duration = JsNum.fin qdur)
    (hc : f.cadence = JsNum.fin qc)
    (hqd : 0 < qd) (hqdur : 0 < qdur) (hqc : 0 < qc)
    (hdup : ∃ e ∈ st.workouts, e.getId = Except.ok idv) :
    (newWorkout st f ll now idv).1.workouts
        = st.workouts ++ [Entry.inst (mkRunning now idv ll qd qdur qc)] ∧
      2 ≤ (newWorkout st f ll now idv).1.workouts.countP
            (fun e => e.idIs idv) ∧
      (newWorkout st f ll now idv).2 = Outcome.ok := by
  have hv : validInputs [JsNum.fin qd, JsNum.fin qdur, JsNum.fin qc] = true := by
    simp [validInputs, JsNum.isFinite]
  have hp : allPositive [JsNum.fin qd, JsNum.fin qdur, JsNum.fin qc] = true := by
    simp [allPositive, JsNum.isPos, hqd, hqdur, hqc]
  have hres : newWorkout st f ll now idv =
      (setLocalStorage { st with workouts :=
          st.workouts ++ [Entry.inst (mkRunning now idv ll qd qdur qc)] },
        Outcome.ok) := by
    have hg : (!validInputs [f.distance, f.duration, f.cadence]
        || !allPositive [f.distance, f.duration, f.cadence]) = false := by
      rw [hd, hdur, hc, hv, hp]
      rfl
    simp only [newWorkout, hty, if_pos, hd, hdur, hc, hg, Bool.false_eq_true,
      if_false, JsNum.toQ]
    simp [setLocalStorage]
    exact ⟨hv, hp⟩
  refine ⟨by rw [hres]; rfl, ?_, by rw [hres]⟩
  rw [hres]
  show 2 ≤ (st.workouts ++
      [Entry.inst (mkRunning now idv ll qd qdur qc)]).countP (fun e => e.idIs idv)
  rw [List.countP_append]
  have h1 : 0 < st.workouts.countP (fun e => e.idIs idv) := by
    rw [List.countP_pos_iff]
    obtain ⟨e, he, hid⟩ := hdup
    exact ⟨e, he, by simp [Entry.idIs, hid]⟩
  have h2 : ([Entry.inst (mkRunning now idv ll qd qdur qc)]).countP
      (fun e => e.idIs idv) = 1 := by
    simp [List.countP_cons, Entry.idIs, Entry.getId, mkRunning]
  omega

/-- C5 witness: a store already holding a record with id "123" accepts a
second valid submission with the same id; the result holds two records with
id "123". -/
theorem add_no_duplicate_check_witness :
    2 ≤ (newWorkout ⟨[Entry.inst sampleRun], none⟩ runForm (1, 2) (0, 1)
          "123").1.workouts.countP
        (fun e => e.idIs "123") :=
  (add_no_duplicate_check ⟨[Entry.inst sampleRun], none⟩ runForm (1, 2) (0, 1)
    "123" 5 20 170 rfl rfl rfl rfl (by norm_num) (by norm_num) (by norm_num)
    ⟨Entry.inst sampleRun, by simp, rfl⟩).2.1

/-- C6: a cycling submission with positive finite distance and duration is
accepted whenever the elevation value is any finite number: the code checks
`allPositive(distance, duration)` only, so zero and negative elevation pass
validation and are stored unchanged on the new record. -/
theorem cycling_elevation_sign_unchecked (st : AppState) (f : FormInput)
    (ll : ℚ × ℚ) (now : Fin 12 × ℕ) (idv : String) (qd qdur ev : ℚ)
    (hty : f.type = "cycling")
    (hd : f.distance = JsNum.fin qd) (hdur : f.duration = JsNum.fin qdur)
    (helev : f.elevation = JsNum.fin ev)
    (hqd : 0 < qd) (hqdur : 0 < qdur) :
    newWorkout st f ll now idv =
        (setLocalStorage { st with workouts :=
            st.workouts ++ [Entry.inst (mkCycling now idv ll qd qdur ev)] },
          Outcome.ok) ∧
      (mkCycling now idv ll qd qdur ev).elevationGain = some ev := by
  have hrun : ¬ f.type = "running" := by rw [hty]; decide
  have hv : validInputs [JsNum.fin qd, JsNum.fin qdur, JsNum.fin ev] = true := by
    simp [validInputs, JsNum.isFinite]
  have hp : allPositive [JsNum.fin qd, JsNum.fin qdur] = true := by
    simp [allPositive, JsNum.isPos, hqd, hqdur]
  have hg : (!validInputs [f.distance, f.duration, f.elevation]
      || !allPositive [f.distance, f.duration]) = false := by
    rw [hd, hdur, helev, hv, hp]
    rfl
  refine ⟨?_, rfl⟩
  simp only [newWorkout, hrun, hty, if_pos, if_neg, hd, hdur, helev, hg,
    Bool.false_eq_true, if_false, JsNum.toQ]
  simp [setLocalStorage]
  exact ⟨hv, hp⟩

/-- C6 witness: a concrete cycling submission with elevation −5 (negative)
is accepted and the record stores elevationGain = −5. -/
theorem cycling_elevation_sign_unchecked_witness :
    newWorkout ⟨[], none⟩
        ⟨"cycling", JsNum.fin 5, JsNum.fin 20, JsNum.fin 0, JsNum.fin (-5)⟩
        (1, 2) (0, 1) "99" =
        (setLocalStorage ⟨[Entry.inst (mkCycling (0, 1) "99" (1, 2) 5 20 (-5))],
            none⟩, Outcome.ok) ∧
      (mkCycling (0, 1) "99" (1, 2) 5 20 (-5)).elevationGain = some (-5) :=
  cycling_elevation_sign_unchecked ⟨[], none⟩ _ (1, 2) (0, 1) "99" 5 20 (-5)
    rfl rfl rfl rfl (by norm_num) (by norm_num)

end Mapty

namespace Mapty

/-- Scanning a prefix in which every slot is defined and none bears the
looked-up id, `clickFirst` passes over it and acts on the remainder. -/
theorem clickFirst_append_of_no_match (pre rest : List Entry) (i : String)
    (h : ∀ e ∈ pre, ∃ s, e.getId = Except.ok s ∧ s ≠ i) :
    clickFirst (pre ++ rest) i =
      (clickFirst rest i).map (fun r => pre ++ r) := by
  induction pre with
  | nil =>
      cases hr : clickFirst rest i <;> simp [Except.map, hr]
  | cons e pre' ih =>
      obtain ⟨s, hs, hne⟩ := h e (List.mem_cons_self e pre')
      have ih' := ih (fun a ha => h a (List.mem_cons_of_mem e ha))
      show clickFirst (e :: (pre' ++ rest)) i = _
      rw [clickFirst, hs]
      simp only [if_neg hne, ih']
      cases hr : clickFirst rest i <;> simp [Except.map, hr]

/-- C7: for positive distance and duration, pace and speed are the values
stored at construction, both are decimal strings with exactly one fractional
digit denoting the quotient rounded to the nearest tenth, and the rounded
pace times the distance equals the duration within the rounding tolerance
`distance / 20`. -/
theorem metric_rounding_tolerance (d dur : ℚ) (hd : 0 < d) (hdur : 0 < dur) :
    (∀ (now : Fin 12 × ℕ) (idv : String) (coords : ℚ × ℚ) (cad : ℚ),
        (mkRunning now idv coords d dur cad).pace = some (toFixed1 (dur / d))) ∧
    (∀ (now : Fin 12 × ℕ) (idv : String) (coords : ℚ × ℚ) (elev : ℚ),
        (mkCycling now idv coords d dur elev).speed =
          some (toFixed1 (d / (dur / 60)))) ∧
    (∃ n : ℕ, toFixed1 (dur / d) = toString (n / 10) ++ "." ++ toString (n % 10) ∧
        round1 (dur / d) = (n : ℚ) / 10) ∧
    (∃ m : ℕ, toFixed1 (d / (dur / 60)) =
          toString (m / 10) ++ "." ++ toString (m % 10) ∧
        round1 (d / (dur / 60)) = (m : ℚ) / 10) ∧
    |round1 (dur / d) * d - dur| ≤ d / 20 := by
  refine ⟨fun _ _ _ _ => rfl, fun _ _ _ _ => rfl, ?_, ?_, ?_⟩
  · exact toFixed1_eq_digits_of_nonneg _ (le_of_lt (div_pos hdur hd))
  · exact toFixed1_eq_digits_of_nonneg _
      (le_of_lt (div_pos hd (by linarith)))
  · have hkey := abs_round1_sub_le (dur / d)
    have hcancel : dur / d * d = dur := div_mul_cancel₀ dur (ne_of_gt hd)
    have hrw : round1 (dur / d) * d - dur = (round1 (dur / d) - dur / d) * d := by
      rw [sub_mul, hcancel]
    rw [hrw, abs_mul, abs_of_pos hd]
    calc |round1 (dur / d) - dur / d| * d ≤ (1 / 20) * d := by
            exact mul_le_mul_of_nonneg_right hkey (le_of_lt hd)
      _ = d / 20 := by ring

/-- C7 witness: at distance 5.2 km and duration 24 min the hypotheses hold
and the rounded pace satisfies the tolerance bound. -/
theorem metric_rounding_tolerance_witness :
    (0 : ℚ) < 5.2 ∧ (0 : ℚ) < 24 ∧
      |round1 ((24 : ℚ) / 5.2) * 5.2 - 24| ≤ 5.2 / 20 :=
  ⟨by norm_num, by norm_num,
    (metric_rounding_tolerance 5.2 24 (by norm_num) (by norm_num)).2.2.2.2⟩

/-- C8: loading replaces the store with the parsed plain data itself: every
serialized record reappears as a plain entry retaining its serialized
`pace`/`speed` and `description` verbatim (even when, as in `samplePlain`,
they disagree with what construction would derive), no entry of the loaded
store is a class instance, and the construction-dependent `click` behavior
is unavailable on every loaded entry. -/
theorem loaded_records_plain (raw : List StoredEntry) :
    ((getLocalStorage ⟨[], some raw⟩).1).workouts = loadEntries raw ∧
    (∀ p : StoredWorkout, some p ∈ raw →
        Entry.plain p ∈ ((getLocalStorage ⟨[], some raw⟩).1).workouts) ∧
    (∀ e ∈ ((getLocalStorage ⟨[], some raw⟩).1).workouts,
        (∀ w : Workout, e ≠ Entry.inst w) ∧
          e.doClick = Except.error JsErr.typeError) := by
  refine ⟨rfl, ?_, ?_⟩
  · intro p hp
    show Entry.plain p ∈ loadEntries raw
    exact List.mem_map_of_mem loadEntry hp
  · intro e he
    have he' : e ∈ loadEntries raw := he
    rw [loadEntries, List.mem_map] at he'
    obtain ⟨se, _, hse⟩ := he'
    cases se with
    | none =>
        subst hse
        exact ⟨(fun w h => nomatch h), rfl⟩
    | some p =>
        subst hse
        exact ⟨(fun w h => nomatch h), rfl⟩

/-- C8 witness: loading a single serialized record yields the plain entry
itself, whose stored pace "9.9" differs from the re-derived "4.0", and whose
`click` call throws. -/
theorem loaded_records_plain_witness :
    Entry.plain samplePlain ∈
        ((getLocalStorage ⟨[], some [some samplePlain]⟩).1).workouts ∧
      (Entry.plain samplePlain).doClick = Except.error JsErr.typeError ∧
      samplePlain.pace ≠ some (toFixed1 (samplePlain.duration / samplePlain.distance)) :=
  ⟨(loaded_records_plain [some samplePlain]).2.1 samplePlain (by simp),
    ((loaded_records_plain [some samplePlain]).2.2 (Entry.plain samplePlain)
      ((loaded_records_plain [some samplePlain]).2.1 samplePlain (by simp))).2,
    by
      show some "9.9" ≠ some (toFixed1 ((20 : ℚ) / 5))
      have h0 : ¬((20 : ℚ) / 5 < 0) := by norm_num
      have h1 : round (((20 : ℚ) / 5) * 10) = 40 := by norm_num [round_eq]
      simp only [toFixed1, toFixed1Digits, if_neg h0, h1]
      decide⟩

/-- C9: a submission whose type is neither "running" nor "cycling" skips
both validation branches, pushes the still-undefined `newWorkout` onto the
workouts array, and the subsequent `_renderWorkout` dereference of it throws
a `TypeError` before anything is persisted: the handler is total only for
the two known kinds. -/
theorem unknown_type_pushes_undefined (st : AppState) (f : FormInput)
    (ll : ℚ × ℚ) (now : Fin 12 × ℕ) (idv : String)
    (h1 : f.type ≠ "running") (h2 : f.type ≠ "cycling") :
    newWorkout st f ll now idv =
      ({ st with workouts := st.workouts ++ [Entry.undefined] },
        Outcome.threw JsErr.typeError) := by
  simp [newWorkout, h1, h2]

/-- C9 witness: a "hiking" submission appends an undefined slot to the empty
store and throws; the storage is untouched. -/
theorem unknown_type_pushes_undefined_witness :
    newWorkout ⟨[], none⟩
        ⟨"hiking", JsNum.fin 5, JsNum.fin 20, JsNum.fin 170, JsNum.fin 0⟩
        (1, 2) (0, 1) "7" =
      (⟨[Entry.undefined], none⟩, Outcome.threw JsErr.typeError) :=
  unknown_type_pushes_undefined ⟨[], none⟩ _ (1, 2) (0, 1) "7"
    (by decide) (by decide)

/-- C10 counterexample: the claim says activating any record present in the
store increments its clicks counter; a record loaded from storage is present
in the store, yet activating it throws a `TypeError` (plain objects have no
`click` method) and the store is not updated. -/
theorem activate_plain_record_cex :
    moveToPopup [Entry.plain samplePlain] (some "777") =
      Except.error JsErr.typeError := rfl

/-- C10 (amended): for a class-instance record that is the first entry
bearing its id, with every earlier entry defined and bearing a different id,
activation increments its clicks by exactly one and leaves its other fields
and all other entries unchanged; for a plain record loaded from storage in
the same position, activation instead throws and changes nothing. -/
theorem activate_instance_increments_clicks (pre post : List Entry) :
    (∀ w : Workout, (∀ e ∈ pre, ∃ s, e.getId = Except.ok s ∧ s ≠ w.id) →
        moveToPopup (pre ++ Entry.inst w :: post) (some w.id) =
          Except.ok (pre ++ Entry.inst { w with clicks := w.clicks + 1 } :: post)) ∧
    (∀ p : StoredWorkout, (∀ e ∈ pre, ∃ s, e.getId = Except.ok s ∧ s ≠ p.id) →
        moveToPopup (pre ++ Entry.plain p :: post) (some p.id) =
          Except.error JsErr.typeError) := by
  constructor
  · intro w hpre
    show clickFirst (pre ++ Entry.inst w :: post) w.id = _
    rw [clickFirst_append_of_no_match pre (Entry.inst w :: post) w.id hpre]
    have hbase : clickFirst (Entry.inst w :: post) w.id =
        Except.ok (Entry.inst { w with clicks := w.clicks + 1 } :: post) := by
      rw [clickFirst]
      show (if w.id = w.id then _ else _) = _
      rw [if_pos rfl]
      rfl
    rw [hbase]
    rfl
  · intro p hpre
    show clickFirst (pre ++ Entry.plain p :: post) p.id = _
    rw [clickFirst_append_of_no_match pre (Entry.plain p :: post) p.id hpre]
    have hbase : clickFirst (Entry.plain p :: post) p.id =
        Except.error JsErr.typeError := by
      rw [clickFirst]
      show (if p.id = p.id then _ else _) = _
      rw [if_pos rfl]
      rfl
    rw [hbase]
    rfl

/-- C10 witness: clicking the single class-instance record of a store bumps
its clicks from 0 to 1 and leaves everything else intact; clicking the
single loaded plain record of a store throws. -/
theorem activate_instance_increments_clicks_witness :
    moveToPopup [Entry.inst sampleRun] (some "123") =
        Except.ok [Entry.inst { sampleRun with clicks := sampleRun.clicks + 1 }] ∧
      moveToPopup [Entry.plain samplePlain] (some "777") =
        Except.error JsErr.typeError :=
  ⟨(activate_instance_increments_clicks [] []).1 sampleRun (by simp),
    (activate_instance_increments_clicks [] []).2 samplePlain (by simp)⟩

end Mapty
